import Mathlib

/-!
Shallow embedding of the TURN client relay-connection subsystem
(`src/client/relay_conn.rs`) for checking the natural-language
specification against the code.

Modelling conventions:
* Machine integers (`u16`, `usize`) are `Nat`; none of the embedded code
  paths overflow (channel numbers stay in `[0x4000, 0x7FFF]`, lengths are
  small), so no explicit wrap-around is needed.
* `tokio::time::Instant` and `Duration` are `Nat` numbers of seconds; the
  current instant is passed in as an explicit `now` argument at the places
  where the source calls `Instant::now()`.
* The observer (`RelayConnObserver`) is split into an immutable
  environment `Env` (server address, username, realm) and a response
  oracle `script : Nat -> TxOutcome` consumed at successive indices by
  `perform_transaction`; the next index `k` is threaded through the
  functions.  `write_to` on the underlying socket is out of scope per the
  spec and is modelled as succeeding with the encoded byte length.
* Every observable action (transaction, raw write, `tokio::spawn`,
  `on_deallocated`) is recorded in an ordered event list.
* Asynchronously spawned ChannelBind tasks are modelled by separate
  functions (`initialBindTask`, `refreshBindTask`) whose bodies mirror the
  closures passed to `tokio::spawn`; `send_to` records the spawn as an
  event together with the captured values.
-/

namespace Turn

/-- Socket address: ip and port, both numeric. -/
structure SocketAddr where
  ip : Nat
  port : Nat
deriving DecidableEq

/-- Permission state, `PermState` in `src/client/permission.rs` (spec section 3):
state of a permission is Idle or Permitted. -/
inductive PermState where
  | idle
  | permitted
deriving DecidableEq

/-- Modelled from the spec: `src/client/permission.rs` is not among the provided
sources.  A permission record holds only its state; `Permission::default()`
yields the Idle state (spec: created Idle on first send_to). -/
structure Permission where
  st : PermState := PermState.idle
deriving DecidableEq

/-- Binding state, `BindingState` in `src/client/binding.rs`
(spec section 3): Idle, Request, Ready, Refresh or Failed. -/
inductive BindingState where
  | idle
  | request
  | ready
  | refresh
  | failed
deriving DecidableEq

/-- Modelled from the spec: `src/client/binding.rs` is not among the provided
sources.  A channel binding holds the peer socket address (key), the 16-bit
channel number, the state, and the timestamp of the last successful
ChannelBind (`refreshed_at`), initialised to the creation instant. -/
structure Binding where
  number : Nat
  addr : SocketAddr
  st : BindingState
  refreshedAt : Nat
deriving DecidableEq

/-- The STUN message class of a message type. -/
inductive MessageClass where
  | request
  | indication
  | successResponse
  | errorResponse
deriving DecidableEq

/-- The STUN/TURN method of a message type. -/
inductive MsgMethod where
  | send
  | createPermission
  | channelBind
  | refresh
  | other (n : Nat)
deriving DecidableEq

/-- A STUN message type: method and class (`stun::message::MessageType`). -/
structure MessageType where
  method : MsgMethod
  cls : MessageClass
deriving DecidableEq

/-- A response message as seen by `relay_conn.rs`: its type plus the
attributes the code reads.  `errorCode` models the ERROR-CODE attribute
(`ErrorCodeAttribute::get_from` fails when it is `none`), `nonceAttr`
the NONCE attribute (`Nonce::get_from_as`), and `lifetimeAttr` the
LIFETIME attribute in seconds (`Lifetime::get_from`). -/
structure Message where
  typ : MessageType
  errorCode : Option Nat := none
  nonceAttr : Option String := none
  lifetimeAttr : Option Nat := none
deriving DecidableEq

/-- Error values of `util::Error` as distinguished by `relay_conn.rs`
(the Rust code compares errors by their message strings; the constructors
below are pairwise distinct exactly like those strings). -/
inductive TurnError where
  /-- ERR_TRY_AGAIN, the stale-nonce retry signal. -/
  | tryAgain
  /-- ERR_UNEXPECTED_RESPONSE from `bind`. -/
  | unexpectedResponse
  /-- ERR_ALREADY_CLOSED. -/
  | alreadyClosed
  /-- ERR_SHORT_BUFFER. -/
  | shortBuffer
  /-- `Error::new("Addr not found".to_owned())` when `BindingManager::create` fails. -/
  | addrNotFound
  /-- `Error::new(format!("{}", res.typ))`: error response without ERROR-CODE. -/
  | respType (typ : MessageType)
  /-- `Error::new(format!("{} (error {})", res.typ, code))`. -/
  | respTypeCode (typ : MessageType) (code : Nat)
  /-- A required attribute was absent (`get_from(&res)?` on LIFETIME). -/
  | attributeNotFound
  /-- An opaque failure returned by `observer.perform_transaction`. -/
  | txFailure (s : String)
deriving DecidableEq

/-- Outcome of one `perform_transaction` call, supplied by the oracle. -/
inductive TxOutcome where
  /-- The transaction layer returned `Err(e)`. -/
  | failure (e : TurnError)
  /-- The transaction layer returned `Ok(TransactionResult)` carrying `msg`
  (ignored by the caller when `dont_wait` is set). -/
  | response (m : Message)

/-- Content of an outgoing request message built by `relay_conn.rs`
(transaction-id omitted; FINGERPRINT and MESSAGE-INTEGRITY are always
appended by the source and carry no information beyond `integrity`). -/
inductive OutMsg where
  /-- CreatePermission request: XOR-PEER-ADDRESS per target, USERNAME,
  REALM, NONCE, MESSAGE-INTEGRITY, FINGERPRINT. -/
  | createPermission (peers : List SocketAddr) (username realm nonce integrity : String)
  /-- ChannelBind request: XOR-PEER-ADDRESS, CHANNEL-NUMBER, USERNAME,
  REALM, NONCE, MESSAGE-INTEGRITY, FINGERPRINT. -/
  | channelBind (peer : SocketAddr) (number : Nat) (username realm nonce integrity : String)
  /-- Refresh request: LIFETIME (seconds), USERNAME, REALM, NONCE,
  MESSAGE-INTEGRITY, FINGERPRINT. -/
  | refresh (lifetime : Nat) (username realm nonce integrity : String)
deriving DecidableEq

/-- Data written through `observer.write_to`. -/
inductive Write where
  /-- A Send indication: MessageType(Send, Indication), DATA payload,
  XOR-PEER-ADDRESS, FINGERPRINT. -/
  | sendIndication (payload : List Nat) (peer : SocketAddr)
  /-- A ChannelData frame: channel number header plus payload. -/
  | channelData (number : Nat) (payload : List Nat)
deriving DecidableEq

/-- A background task handed to `tokio::spawn` by `send_to`, with the
values captured by the closure. -/
inductive SpawnTask where
  /-- Initial ChannelBind task (binding was Idle). -/
  | initialBind (addr : SocketAddr) (number : Nat) (nonce integrity : String)
  /-- Rebind task for a stale Ready binding. -/
  | refreshBind (addr : SocketAddr) (number : Nat) (nonce integrity : String)
deriving DecidableEq

/-- Observable action of the relay-conn, in program order. -/
inductive Event where
  /-- A call to `observer.perform_transaction(msg, dst, dontWait)`. -/
  | tx (msg : OutMsg) (dst : SocketAddr) (dontWait : Bool)
  /-- A call to `observer.write_to(raw, dst)`. -/
  | write (w : Write) (dst : SocketAddr)
  /-- A `tokio::spawn` of a background ChannelBind task. -/
  | spawn (t : SpawnTask)
  /-- A call to `observer.on_deallocated(addr)`. -/
  | dealloc (addr : SocketAddr)
deriving DecidableEq

/-- Whether an event is a `perform_transaction` call (as opposed to a raw
write, a spawn or a notification). -/
def eventIsTx : Event → Bool
  | Event.tx _ _ _ => true
  | _ => false

/-- The immutable part of the observer: `turn_server_addr()`, `username()`
and `realm()` are constant accessors in the source. -/
structure Env where
  turnServerAddr : SocketAddr
  username : String
  realm : String

/-- Padding of a STUN attribute value length to a 4-byte boundary. -/
def pad4 (n : Nat) : Nat :=
  n + (4 - n % 4) % 4

/-- Byte length of the raw data handed to `write_to`: a Send indication is
a 20-byte STUN header plus the DATA attribute (4-byte header, padded
value), an IPv4 XOR-PEER-ADDRESS (12 bytes) and FINGERPRINT (8 bytes); a
ChannelData frame is the 4-byte header plus the payload (no padding on
UDP).  `write_to` itself is raw socket I/O, out of scope per the spec, and
is modelled as succeeding with this full length. -/
def writeLen : Write → Nat
  | Write.sendIndication p _ => 20 + (4 + pad4 p.length) + 12 + 8
  | Write.channelData _ p => 4 + p.length

/-- MAX_READ_QUEUE_SIZE in `relay_conn.rs`. -/
def MAX_READ_QUEUE_SIZE : Nat := 1024

/-- PERM_REFRESH_INTERVAL in `relay_conn.rs`, in seconds. -/
def PERM_REFRESH_INTERVAL : Nat := 120

/-- MAX_RETRY_ATTEMPTS in `relay_conn.rs`. -/
def MAX_RETRY_ATTEMPTS : Nat := 3

/-- CODE_STALE_NONCE from `stun::error_code`. -/
def CODE_STALE_NONCE : Nat := 438

/-- Smallest channel number (spec section 2: numbers in [0x4000, 0x7FFF]). -/
def MIN_CHANNEL_NUMBER : Nat := 0x4000

/-- Largest channel number. -/
def MAX_CHANNEL_NUMBER : Nat := 0x7FFF

/-- Modelled from the spec: `src/client/permission.rs` is not among the
provided sources.  The permission table maps peer IP to permission record
(spec section 4.2); `find` returns a copy of the value, `insert` and
`delete` key on the address's IP, `addrs` lists the known IPs as socket
addresses with port zero. -/
structure PermissionMap where
  permMap : List (Nat × Permission) := []
deriving DecidableEq

/-- PermissionMap::find, keyed by the address's IP; the caller receives a
value (the source dereferences the returned reference into a copy). -/
def PermissionMap.find (pm : PermissionMap) (addr : SocketAddr) : Option Permission :=
  (pm.permMap.find? (fun e => decide (e.1 = addr.ip))).map (fun e => e.2)

/-- PermissionMap::insert, keyed by the address's IP (replaces an existing
entry for that IP; the table is unordered, so the entry is stored at the
front). -/
def PermissionMap.insert (pm : PermissionMap) (addr : SocketAddr) (p : Permission) :
    PermissionMap :=
  ⟨(addr.ip, p) :: pm.permMap.filter (fun e => decide (e.1 ≠ addr.ip))⟩

/-- PermissionMap::delete, keyed by the address's IP. -/
def PermissionMap.delete (pm : PermissionMap) (addr : SocketAddr) : PermissionMap :=
  ⟨pm.permMap.filter (fun e => decide (e.1 ≠ addr.ip))⟩

/-- PermissionMap::addrs: the known peer IPs, as addresses with port 0. -/
def PermissionMap.addrs (pm : PermissionMap) : List SocketAddr :=
  pm.permMap.map (fun e => ⟨e.1, 0⟩)

/-- Modelled from the spec: `src/client/binding.rs` is not among the
provided sources.  The binding manager maps peer socket address to channel
binding (spec section 4.3); channel numbers are unique, one binding per
address. -/
structure BindingManager where
  bindings : List Binding := []
deriving DecidableEq

/-- BindingManager::find_by_addr. -/
def BindingManager.find_by_addr (bm : BindingManager) (addr : SocketAddr) :
    Option Binding :=
  bm.bindings.find? (fun b => decide (b.addr = addr))

/-- BindingManager::find_by_number. -/
def BindingManager.find_by_number (bm : BindingManager) (number : Nat) :
    Option Binding :=
  bm.bindings.find? (fun b => decide (b.number = number))

/-- The effect of `if let Some(b) = bm.get_by_addr(&addr) { ... mutate b ... }`:
apply `f` to the binding stored under `addr`, if any (addresses are unique
keys, so at most one binding is affected). -/
def BindingManager.modify_by_addr (bm : BindingManager) (addr : SocketAddr)
    (f : Binding → Binding) : BindingManager :=
  ⟨bm.bindings.map (fun b => if b.addr = addr then f b else b)⟩

/-- BindingManager::delete_by_addr. -/
def BindingManager.delete_by_addr (bm : BindingManager) (addr : SocketAddr) :
    BindingManager :=
  ⟨bm.bindings.filter (fun b => decide (b.addr ≠ addr))⟩

/-- First channel number not in `used`, starting at `n`, trying `fuel`
consecutive candidates; `none` when all are taken. -/
def findFreeChannelNumber (used : List Nat) : Nat → Nat → Option Nat
  | 0, _ => none
  | fuel + 1, n => if n ∈ used then findFreeChannelNumber used fuel (n + 1) else some n

/-- Modelled from the spec: BindingManager::create assigns the lowest free
channel number in [0x4000, 0x7FFF] and fails (returns `none`) when the
space is exhausted (spec section 4.3); the new binding starts Idle with
`refreshed_at` set to the creation instant `now`.  Returns the created
binding together with the updated manager. -/
def BindingManager.create (bm : BindingManager) (addr : SocketAddr) (now : Nat) :
    Option (Binding × BindingManager) :=
  match findFreeChannelNumber (bm.bindings.map (fun b => b.number))
      (MAX_CHANNEL_NUMBER + 1 - MIN_CHANNEL_NUMBER) MIN_CHANNEL_NUMBER with
  | none => none
  | some n =>
    let b : Binding := ⟨n, addr, BindingState.idle, now⟩
    some (b, ⟨bm.bindings ++ [b]⟩)

/-- The mutable state of `RelayConnInternal` (observer handle excluded: it
is split into `Env` and the transaction oracle). -/
structure RelayConnInternal where
  relayedAddr : SocketAddr
  permMap : PermissionMap
  bindingMgr : BindingManager
  nonce : String
  integrity : String
  lifetime : Nat
deriving DecidableEq

instance {ε α : Type} [DecidableEq ε] [DecidableEq α] : DecidableEq (Except ε α) :=
  fun x y =>
    match x, y with
    | Except.ok a, Except.ok b =>
      if h : a = b then isTrue (by rw [h]) else isFalse (fun hc => h (Except.ok.inj hc))
    | Except.error a, Except.error b =>
      if h : a = b then isTrue (by rw [h]) else isFalse (fun hc => h (Except.error.inj hc))
    | Except.ok _, Except.error _ => isFalse (fun hc => Except.noConfusion hc)
    | Except.error _, Except.ok _ => isFalse (fun hc => Except.noConfusion hc)

/-- Result of running one modelled async function: the returned value or
error, the state afterwards, the next oracle index, and the events emitted
in order. -/
structure StepResult (σ : Type) (α : Type) where
  result : Except TurnError α
  state : σ
  k : Nat
  events : List Event
deriving DecidableEq

/-- RelayConnInternal::set_nonce_from_msg (`relay_conn.rs` lines 455-464):
updates `self.nonce` from the NONCE attribute when present, otherwise only
logs and leaves the nonce unchanged. -/
def RelayConnInternal.set_nonce_from_msg (c : RelayConnInternal) (msg : Message) :
    RelayConnInternal :=
  match msg.nonceAttr with
  | some nonce => { c with nonce := nonce }
  | none => c

/-- RelayConnInternal::create_permissions (`relay_conn.rs` lines 406-453):
builds a CreatePermission request with one XOR-PEER-ADDRESS per target and
performs the transaction.  Error response without ERROR-CODE yields the
type string; code 438 updates the nonce and yields ERR_TRY_AGAIN; any
other code yields the formatted error; a success-class response yields
`Ok(())`. -/
def RelayConnInternal.create_permissions (env : Env) (script : Nat → TxOutcome)
    (c : RelayConnInternal) (k : Nat) (addrs : List SocketAddr) :
    StepResult RelayConnInternal Unit :=
  let out := OutMsg.createPermission addrs env.username env.realm c.nonce c.integrity
  let ev := Event.tx out env.turnServerAddr false
  match script k with
  | TxOutcome.failure e => ⟨Except.error e, c, k + 1, [ev]⟩
  | TxOutcome.response res =>
    if res.typ.cls = MessageClass.errorResponse then
      match res.errorCode with
      | none => ⟨Except.error (TurnError.respType res.typ), c, k + 1, [ev]⟩
      | some code =>
        if code = CODE_STALE_NONCE then
          ⟨Except.error TurnError.tryAgain, c.set_nonce_from_msg res, k + 1, [ev]⟩
        else
          ⟨Except.error (TurnError.respTypeCode res.typ code), c, k + 1, [ev]⟩
    else
      ⟨Except.ok (), c, k + 1, [ev]⟩

/-- RelayConnInternal::create_perm (`relay_conn.rs` lines 382-392): when
the caller's permission copy is Idle, issue CreatePermission for the one
address; on any error delete the address from the permission table and
return the error; on success set the *local copy* to Permitted.  Returns
the step result together with the (possibly mutated) local copy. -/
def RelayConnInternal.create_perm (env : Env) (script : Nat → TxOutcome)
    (c : RelayConnInternal) (k : Nat) (perm : Permission) (addr : SocketAddr) :
    StepResult RelayConnInternal Unit × Permission :=
  if perm.st = PermState.idle then
    let r := RelayConnInternal.create_permissions env script c k [addr]
    match r.result with
    | Except.error e =>
      (⟨Except.error e, { r.state with permMap := r.state.permMap.delete addr },
        r.k, r.events⟩, perm)
    | Except.ok _ =>
      (⟨Except.ok (), r.state, r.k, r.events⟩, { perm with st := PermState.permitted })
  else
    (⟨Except.ok (), c, k, []⟩, perm)

/-- The `for _ in 0..MAX_RETRY_ATTEMPTS` loop at `relay_conn.rs` lines
238-246: on each iteration `result` is overwritten with the outcome of
`create_perm`; the loop breaks early only on an error other than
ERR_TRY_AGAIN (it does not break on success, but a success sets the local
copy to Permitted so later iterations are no-ops).  `fuel` is the number
of remaining iterations. -/
def createPermLoop (env : Env) (script : Nat → TxOutcome) :
    Nat → RelayConnInternal → Nat → Permission → SocketAddr →
    StepResult RelayConnInternal Unit × Permission
  | 0, c, k, perm, _ => (⟨Except.ok (), c, k, []⟩, perm)
  | fuel + 1, c, k, perm, addr =>
    let rp := RelayConnInternal.create_perm env script c k perm addr
    let brk : Bool :=
      match rp.1.result with
      | Except.error e => decide (e ≠ TurnError.tryAgain)
      | Except.ok _ => false
    if brk || fuel == 0 then rp
    else
      let rp2 := createPermLoop env script fuel rp.1.state rp.1.k rp.2 addr
      (⟨rp2.1.result, rp2.1.state, rp2.1.k, rp.1.events ++ rp2.1.events⟩, rp2.2)

/-- The permission lookup at the top of send_to (`relay_conn.rs` lines
229-236): fetch a copy of the permission for the address's IP, inserting
a default (Idle) record first when none exists.  Returns the updated
state and the local copy. -/
def sendToPermInit (c : RelayConnInternal) (addr : SocketAddr) :
    RelayConnInternal × Permission :=
  match c.permMap.find addr with
  | some perm => (c, perm)
  | none => ({ c with permMap := c.permMap.insert addr {} }, {})

/-- The whole permission step of send_to: lookup/insert followed by the
bounded create_perm loop (`relay_conn.rs` lines 229-249). -/
def sendToPermStep (env : Env) (script : Nat → TxOutcome) (c : RelayConnInternal)
    (k : Nat) (addr : SocketAddr) : StepResult RelayConnInternal Unit × Permission :=
  let init := sendToPermInit c addr
  createPermLoop env script MAX_RETRY_ATTEMPTS init.1 k init.2 addr

/-- RelayConnInternal::send_channel_data (`relay_conn.rs` lines 394-404):
encode a ChannelData frame and write it via the observer. -/
def send_channel_data (env : Env) (data : List Nat) (chNum : Nat) :
    Except TurnError Nat × List Event :=
  let w := Write.channelData chNum data
  (Except.ok (writeLen w), [Event.write w env.turnServerAddr])

/-- The dispatch on the binding state read under the binding-manager lock
(`relay_conn.rs` lines 264-372), given the binding `b` (either found or
freshly created).  Idle/Request/Failed: send the payload as a Send
indication, spawning the initial ChannelBind task only when Idle.
Ready with `now - refreshed_at > 300` seconds: spawn the rebind task and
still send ChannelData on the current number; Ready (fresh) and Refresh:
send ChannelData. -/
def dispatchWithBinding (env : Env) (now : Nat) (c : RelayConnInternal) (k : Nat)
    (p : List Nat) (addr : SocketAddr) (b : Binding) : StepResult RelayConnInternal Nat :=
  if b.st = BindingState.idle ∨ b.st = BindingState.request ∨ b.st = BindingState.failed then
    let spawns :=
      if b.st = BindingState.idle then
        [Event.spawn (SpawnTask.initialBind b.addr b.number c.nonce c.integrity)]
      else []
    let w := Write.sendIndication p addr
    ⟨Except.ok (writeLen w), c, k, spawns ++ [Event.write w env.turnServerAddr]⟩
  else
    let spawns :=
      if b.st = BindingState.ready ∧ 5 * 60 < now - b.refreshedAt then
        [Event.spawn (SpawnTask.refreshBind b.addr b.number c.nonce c.integrity)]
      else []
    let sc := send_channel_data env p b.number
    ⟨sc.1, c, k, spawns ++ sc.2⟩

/-- The binding half of send_to (`relay_conn.rs` lines 251-372): find the
binding for the address or create one (error "Addr not found" when
creation fails), then dispatch on its state. -/
def sendToDispatch (env : Env) (now : Nat) (c : RelayConnInternal) (k : Nat)
    (p : List Nat) (addr : SocketAddr) : StepResult RelayConnInternal Nat :=
  match c.bindingMgr.find_by_addr addr with
  | some b => dispatchWithBinding env now c k p addr b
  | none =>
    match c.bindingMgr.create addr now with
    | none => ⟨Except.error TurnError.addrNotFound, c, k, []⟩
    | some bbm =>
      dispatchWithBinding env now { c with bindingMgr := bbm.2 } k p addr bbm.1

/-- RelayConnInternal::send_to (`relay_conn.rs` lines 228-373): the
permission step followed, on success, by the binding dispatch. -/
def RelayConnInternal.send_to (env : Env) (script : Nat → TxOutcome) (now : Nat)
    (c : RelayConnInternal) (k : Nat) (p : List Nat) (addr : SocketAddr) :
    StepResult RelayConnInternal Nat :=
  let L := (sendToPermStep env script c k addr).1
  match L.result with
  | Except.error e => ⟨Except.error e, L.state, L.k, L.events⟩
  | Except.ok _ =>
    let d := sendToDispatch env now L.state L.k p addr
    ⟨d.result, d.state, d.k, L.events ++ d.events⟩

/-- RelayConnInternal::bind (`relay_conn.rs` lines 564-608): build a
ChannelBind request with the captured nonce and integrity, perform the
transaction, and demand a MessageType(ChannelBind, SuccessResponse);
any other response type yields ERR_UNEXPECTED_RESPONSE. -/
def RelayConnInternal.bind (env : Env) (script : Nat → TxOutcome) (k : Nat)
    (bindAddr : SocketAddr) (bindNumber : Nat) (nonce integrity : String) :
    Except TurnError Unit × Nat × List Event :=
  let out := OutMsg.channelBind bindAddr bindNumber env.username env.realm nonce integrity
  let ev := Event.tx out env.turnServerAddr false
  match script k with
  | TxOutcome.failure e => (Except.error e, k + 1, [ev])
  | TxOutcome.response res =>
    if res.typ = MessageType.mk MsgMethod.channelBind MessageClass.successResponse then
      (Except.ok (), k + 1, [ev])
    else
      (Except.error TurnError.unexpectedResponse, k + 1, [ev])

/-- The body of the closure spawned for the initial ChannelBind
(`relay_conn.rs` lines 276-308): set the binding to Request, run `bind`,
then on failure delete the binding (unless the error is
ERR_UNEXPECTED_RESPONSE, which marks it Failed and keeps it), and on
success set it to Ready (its `refreshed_at` is not touched). -/
def initialBindTask (env : Env) (script : Nat → TxOutcome) (k : Nat)
    (bm : BindingManager) (bindAddr : SocketAddr) (bindNumber : Nat)
    (nonce integrity : String) : BindingManager × Nat × List Event :=
  let bm1 := bm.modify_by_addr bindAddr (fun b => { b with st := BindingState.request })
  let r := RelayConnInternal.bind env script k bindAddr bindNumber nonce integrity
  let bm2 :=
    match r.1 with
    | Except.error e =>
      if e ≠ TurnError.unexpectedResponse then bm1.delete_by_addr bindAddr
      else bm1.modify_by_addr bindAddr (fun b => { b with st := BindingState.failed })
    | Except.ok _ =>
      bm1.modify_by_addr bindAddr (fun b => { b with st := BindingState.ready })
  (bm2, r.2.1, r.2.2)

/-- The body of the closure spawned for the refresh rebind
(`relay_conn.rs` lines 337-365): set the binding to Refresh, run `bind`,
then on failure delete or mark Failed exactly as the initial task does,
and on success set `refreshed_at` to the completion instant `nowDone` and
the state to Ready. -/
def refreshBindTask (env : Env) (script : Nat → TxOutcome) (k : Nat) (nowDone : Nat)
    (bm : BindingManager) (bindAddr : SocketAddr) (bindNumber : Nat)
    (nonce integrity : String) : BindingManager × Nat × List Event :=
  let bm1 := bm.modify_by_addr bindAddr (fun b => { b with st := BindingState.refresh })
  let r := RelayConnInternal.bind env script k bindAddr bindNumber nonce integrity
  let bm2 :=
    match r.1 with
    | Except.error e =>
      if e ≠ TurnError.unexpectedResponse then bm1.delete_by_addr bindAddr
      else bm1.modify_by_addr bindAddr (fun b => { b with st := BindingState.failed })
    | Except.ok _ =>
      bm1.modify_by_addr bindAddr
        (fun b => { b with refreshedAt := nowDone, st := BindingState.ready })
  (bm2, r.2.1, r.2.2)

/-- RelayConnInternal::refresh_allocation (`relay_conn.rs` lines 488-544):
send a Refresh request carrying `lifetime`; if `dont_wait`, return Ok
right after the send.  Otherwise: error response without ERROR-CODE yields
the type string; code 438 updates the nonce and yields ERR_TRY_AGAIN; any
other error code yields Ok with the state unchanged; a success response
must carry LIFETIME, which replaces `self.lifetime`. -/
def RelayConnInternal.refresh_allocation (env : Env) (script : Nat → TxOutcome)
    (c : RelayConnInternal) (k : Nat) (lifetime : Nat) (dontWait : Bool) :
    StepResult RelayConnInternal Unit :=
  let out := OutMsg.refresh lifetime env.username env.realm c.nonce c.integrity
  let ev := Event.tx out env.turnServerAddr dontWait
  match script k with
  | TxOutcome.failure e => ⟨Except.error e, c, k + 1, [ev]⟩
  | TxOutcome.response res =>
    if dontWait then ⟨Except.ok (), c, k + 1, [ev]⟩
    else if res.typ.cls = MessageClass.errorResponse then
      match res.errorCode with
      | none => ⟨Except.error (TurnError.respType res.typ), c, k + 1, [ev]⟩
      | some code =>
        if code = CODE_STALE_NONCE then
          ⟨Except.error TurnError.tryAgain, c.set_nonce_from_msg res, k + 1, [ev]⟩
        else
          ⟨Except.ok (), c, k + 1, [ev]⟩
    else
      match res.lifetimeAttr with
      | none => ⟨Except.error TurnError.attributeNotFound, c, k + 1, [ev]⟩
      | some l => ⟨Except.ok (), { c with lifetime := l }, k + 1, [ev]⟩

/-- RelayConnInternal::refresh_permissions (`relay_conn.rs` lines 546-562):
no-op when the permission table is empty, otherwise a single
CreatePermission listing every known IP, errors passed through. -/
def RelayConnInternal.refresh_permissions (env : Env) (script : Nat → TxOutcome)
    (c : RelayConnInternal) (k : Nat) : StepResult RelayConnInternal Unit :=
  let addrs := c.permMap.addrs
  if addrs.isEmpty then ⟨Except.ok (), c, k, []⟩
  else RelayConnInternal.create_permissions env script c k addrs

/-- RelayConnInternal::close (`relay_conn.rs` lines 468-475): notify the
observer via on_deallocated, then a Refresh with lifetime 0 in dont-wait
mode. -/
def RelayConnInternal.close (env : Env) (script : Nat → TxOutcome)
    (c : RelayConnInternal) (k : Nat) : StepResult RelayConnInternal Unit :=
  let r := RelayConnInternal.refresh_allocation env script c k 0 true
  ⟨r.result, r.state, r.k, Event.dealloc c.relayedAddr :: r.events⟩

/-- Timer identity, `TimerIdRefresh` in `src/client/periodic_timer.rs`. -/
inductive TimerIdRefresh where
  | alloc
  | perms
deriving DecidableEq

/-- The Alloc arm of on_timeout (`relay_conn.rs` lines 616-631): up to
`fuel` invocations of `refresh_allocation(lifetime, false)`, breaking
early only when the result is an error other than ERR_TRY_AGAIN (the loop
does not break on success). -/
def refreshAllocLoop (env : Env) (script : Nat → TxOutcome) (lifetime : Nat) :
    Nat → RelayConnInternal → Nat → StepResult RelayConnInternal Unit
  | 0, c, k => ⟨Except.ok (), c, k, []⟩
  | fuel + 1, c, k =>
    let r := RelayConnInternal.refresh_allocation env script c k lifetime false
    let brk : Bool :=
      match r.result with
      | Except.error e => decide (e ≠ TurnError.tryAgain)
      | Except.ok _ => false
    if brk || fuel == 0 then r
    else
      let r2 := refreshAllocLoop env script lifetime fuel r.state r.k
      ⟨r2.result, r2.state, r2.k, r.events ++ r2.events⟩

/-- The Perms arm of on_timeout (`relay_conn.rs` lines 633-646): the same
loop over `refresh_permissions`. -/
def refreshPermsLoop (env : Env) (script : Nat → TxOutcome) :
    Nat → RelayConnInternal → Nat → StepResult RelayConnInternal Unit
  | 0, c, k => ⟨Except.ok (), c, k, []⟩
  | fuel + 1, c, k =>
    let r := RelayConnInternal.refresh_permissions env script c k
    let brk : Bool :=
      match r.result with
      | Except.error e => decide (e ≠ TurnError.tryAgain)
      | Except.ok _ => false
    if brk || fuel == 0 then r
    else
      let r2 := refreshPermsLoop env script fuel r.state r.k
      ⟨r2.result, r2.state, r2.k, r.events ++ r2.events⟩

/-- RelayConnInternal::on_timeout (`relay_conn.rs` lines 613-648):
dispatch on the timer id; the Alloc arm reads `self.lifetime` once before
its loop. -/
def RelayConnInternal.on_timeout (env : Env) (script : Nat → TxOutcome)
    (c : RelayConnInternal) (k : Nat) : TimerIdRefresh → StepResult RelayConnInternal Unit
  | TimerIdRefresh.alloc => refreshAllocLoop env script c.lifetime MAX_RETRY_ATTEMPTS c k
  | TimerIdRefresh.perms => refreshPermsLoop env script MAX_RETRY_ATTEMPTS c k

/-- One queued inbound packet (`InboundData` in `relay_conn.rs`). -/
structure InboundData where
  data : List Nat
  fromAddr : SocketAddr
deriving DecidableEq

/-- The facade state of `RelayConn`: the inbound queue sender half
(`read_ch_tx`, present until close), the buffered queue contents, the two
periodic timers (modelled from the spec as running flags, since
`src/client/periodic_timer.rs` is not among the provided sources), and
the internal state. -/
structure RelayConn where
  relayedAddr : SocketAddr
  readChTxOpen : Bool
  readQueue : List InboundData
  refreshAllocTimerRunning : Bool
  refreshPermsTimerRunning : Bool
  relayConn : RelayConnInternal
deriving DecidableEq

/-- RelayConn::handle_inbound (`relay_conn.rs` lines 113-128): when the
sender half is present, try_send the packet (dropping it with a log when
the queue is full) and return Ok; otherwise fail with ERR_ALREADY_CLOSED. -/
def RelayConn.handle_inbound (rc : RelayConn) (data : List Nat) (fromAddr : SocketAddr) :
    Except TurnError Unit × RelayConn :=
  if rc.readChTxOpen then
    if rc.readQueue.length < MAX_READ_QUEUE_SIZE then
      (Except.ok (), { rc with readQueue := rc.readQueue ++ [⟨data, fromAddr⟩] })
    else
      (Except.ok (), rc)
  else
    (Except.error TurnError.alreadyClosed, rc)

/-- RelayConn::close (`relay_conn.rs` lines 132-142): fail with
ERR_ALREADY_CLOSED when the sender half is already gone; otherwise stop
both timers, drop the sender half, and run the internal close. -/
def RelayConn.close (env : Env) (script : Nat → TxOutcome) (rc : RelayConn) (k : Nat) :
    StepResult RelayConn Unit :=
  if rc.readChTxOpen = false then ⟨Except.error TurnError.alreadyClosed, rc, k, []⟩
  else
    let rc1 := { rc with
      refreshAllocTimerRunning := false
      refreshPermsTimerRunning := false
      readChTxOpen := false }
    let r := RelayConnInternal.close env script rc1.relayConn k
    ⟨r.result, { rc1 with relayConn := r.state }, r.k, r.events⟩

/-- RelayConn::recv_from (`relay_conn.rs` lines 165-184): dequeue one
inbound packet.  If one is available (queue nonempty), a buffer shorter
than its payload fails with ERR_SHORT_BUFFER (the packet stays dequeued);
otherwise the payload is copied into the front of the buffer and (n, from)
returned.  When the queue is drained and the sender half is gone, the
channel yields `None` and the call fails with ERR_ALREADY_CLOSED; when the
queue is empty but the sender is still open the call would block, which
the model reports as `none`. -/
def RelayConn.recv_from (rc : RelayConn) (p : List Nat) :
    Option (Except TurnError (Nat × SocketAddr × List Nat)) × RelayConn :=
  match rc.readQueue with
  | ibd :: rest =>
    let n := ibd.data.length
    if p.length < n then
      (some (Except.error TurnError.shortBuffer), { rc with readQueue := rest })
    else
      (some (Except.ok (n, ibd.fromAddr, ibd.data ++ p.drop n)), { rc with readQueue := rest })
  | [] =>
    if rc.readChTxOpen then (none, rc)
    else (some (Except.error TurnError.alreadyClosed), rc)

/-! Concrete fixtures used by the witnesses below. -/

/-- A concrete observer environment. -/
def exEnv : Env := ⟨⟨9, 3478⟩, "user", "realm"⟩

/-- A concrete peer address. -/
def exAddr : SocketAddr := ⟨1, 5000⟩

/-- A concrete internal state with empty tables. -/
def exC : RelayConnInternal := ⟨⟨8, 1⟩, ⟨[]⟩, ⟨[]⟩, "nonce0", "integ", 600⟩

/-- A Refresh success response carrying LIFETIME 777. -/
def resRefreshOk : Message := ⟨⟨MsgMethod.refresh, MessageClass.successResponse⟩, none, none, some 777⟩

/-- A Refresh 438 stale-nonce error response carrying NONCE "N2". -/
def resRefresh438 : Message := ⟨⟨MsgMethod.refresh, MessageClass.errorResponse⟩, some 438, some "N2", none⟩

/-- A Refresh error response with code 403. -/
def resRefresh403 : Message := ⟨⟨MsgMethod.refresh, MessageClass.errorResponse⟩, some 403, none, none⟩

/-- A CreatePermission success response. -/
def resCPOk : Message := ⟨⟨MsgMethod.createPermission, MessageClass.successResponse⟩, none, none, none⟩

/-- A CreatePermission 438 stale-nonce error response carrying NONCE "N2". -/
def resCP438 : Message := ⟨⟨MsgMethod.createPermission, MessageClass.errorResponse⟩, some 438, some "N2", none⟩

/-- A CreatePermission error response with code 403. -/
def resCP403 : Message := ⟨⟨MsgMethod.createPermission, MessageClass.errorResponse⟩, some 403, none, none⟩

/-- A ChannelBind success response. -/
def resCBOk : Message := ⟨⟨MsgMethod.channelBind, MessageClass.successResponse⟩, none, none, none⟩

/-- A ChannelBind error response (code 400). -/
def resCB400 : Message := ⟨⟨MsgMethod.channelBind, MessageClass.errorResponse⟩, some 400, none, none⟩

/-- Claim C4: `refresh_allocation(lifetime, dont_wait)` returns Ok right
after the send when `dont_wait` is true; on a success response it
extracts the LIFETIME attribute into `self.lifetime`; on a 438 error
response it replaces the nonce from the response and returns TryAgain;
and on an error response with any other code it returns Ok with the
state unchanged. -/
theorem claimC4 (env : Env) (script₁ script₂ script₃ script₄ : Nat → TxOutcome)
    (c : RelayConnInternal) (k lt : Nat)
    (res₁ res₂ res₃ res₄ : Message) (L₂ : Nat) (nn : String) (code : Nat)
    (h1 : script₁ k = TxOutcome.response res₁)
    (h2 : script₂ k = TxOutcome.response res₂)
    (h2c : res₂.typ.cls ≠ MessageClass.errorResponse)
    (h2l : res₂.lifetimeAttr = some L₂)
    (h3 : script₃ k = TxOutcome.response res₃)
    (h3c : res₃.typ.cls = MessageClass.errorResponse)
    (h3e : res₃.errorCode = some 438)
    (h3n : res₃.nonceAttr = some nn)
    (h4 : script₄ k = TxOutcome.response res₄)
    (h4c : res₄.typ.cls = MessageClass.errorResponse)
    (h4e : res₄.errorCode = some code)
    (h4ne : code ≠ 438) :
    RelayConnInternal.refresh_allocation env script₁ c k lt true =
      ⟨Except.ok (), c, k + 1,
        [Event.tx (OutMsg.refresh lt env.username env.realm c.nonce c.integrity)
          env.turnServerAddr true]⟩ ∧
    RelayConnInternal.refresh_allocation env script₂ c k lt false =
      ⟨Except.ok (), { c with lifetime := L₂ }, k + 1,
        [Event.tx (OutMsg.refresh lt env.username env.realm c.nonce c.integrity)
          env.turnServerAddr false]⟩ ∧
    RelayConnInternal.refresh_allocation env script₃ c k lt false =
      ⟨Except.error TurnError.tryAgain, { c with nonce := nn }, k + 1,
        [Event.tx (OutMsg.refresh lt env.username env.realm c.nonce c.integrity)
          env.turnServerAddr false]⟩ ∧
    RelayConnInternal.refresh_allocation env script₄ c k lt false =
      ⟨Except.ok (), c, k + 1,
        [Event.tx (OutMsg.refresh lt env.username env.realm c.nonce c.integrity)
          env.turnServerAddr false]⟩ := by
  refine ⟨?_, ?_, ?_, ?_⟩
  · simp [RelayConnInternal.refresh_allocation, h1]
  · simp [RelayConnInternal.refresh_allocation, h2, h2c, h2l]
  · simp [RelayConnInternal.refresh_allocation, h3, h3c, h3e, CODE_STALE_NONCE,
      RelayConnInternal.set_nonce_from_msg, h3n]
  · simp [RelayConnInternal.refresh_allocation, h4, h4c, h4e, CODE_STALE_NONCE, h4ne]

/-- Witness for C4 at concrete inputs. -/
theorem claimC4_witness :
    RelayConnInternal.refresh_allocation exEnv (fun _ => TxOutcome.response resRefreshOk)
      exC 0 600 true =
      ⟨Except.ok (), exC, 1,
        [Event.tx (OutMsg.refresh 600 exEnv.username exEnv.realm exC.nonce exC.integrity)
          exEnv.turnServerAddr true]⟩ ∧
    RelayConnInternal.refresh_allocation exEnv (fun _ => TxOutcome.response resRefreshOk)
      exC 0 600 false =
      ⟨Except.ok (), { exC with lifetime := 777 }, 1,
        [Event.tx (OutMsg.refresh 600 exEnv.username exEnv.realm exC.nonce exC.integrity)
          exEnv.turnServerAddr false]⟩ ∧
    RelayConnInternal.refresh_allocation exEnv (fun _ => TxOutcome.response resRefresh438)
      exC 0 600 false =
      ⟨Except.error TurnError.tryAgain, { exC with nonce := "N2" }, 1,
        [Event.tx (OutMsg.refresh 600 exEnv.username exEnv.realm exC.nonce exC.integrity)
          exEnv.turnServerAddr false]⟩ ∧
    RelayConnInternal.refresh_allocation exEnv (fun _ => TxOutcome.response resRefresh403)
      exC 0 600 false =
      ⟨Except.ok (), exC, 1,
        [Event.tx (OutMsg.refresh 600 exEnv.username exEnv.realm exC.nonce exC.integrity)
          exEnv.turnServerAddr false]⟩ :=
  claimC4 exEnv (fun _ => TxOutcome.response resRefreshOk)
    (fun _ => TxOutcome.response resRefreshOk) (fun _ => TxOutcome.response resRefresh438)
    (fun _ => TxOutcome.response resRefresh403) exC 0 600
    resRefreshOk resRefreshOk resRefresh438 resRefresh403 777 "N2" 403
    rfl rfl (by decide) (by decide) rfl (by decide) (by decide) (by decide)
    rfl (by decide) (by decide) (by decide)

/-- Claim C5: after a CreatePermission or Refresh transaction answered by
an error response with code 438, the relay-conn's nonce equals the NONCE
attribute carried by that response, and the operation signals TryAgain. -/
theorem claimC5 (env : Env) (script : Nat → TxOutcome) (c : RelayConnInternal)
    (k lt : Nat) (addrs : List SocketAddr) (res : Message) (nn : String)
    (h : script k = TxOutcome.response res)
    (hc : res.typ.cls = MessageClass.errorResponse)
    (he : res.errorCode = some 438)
    (hn : res.nonceAttr = some nn) :
    (RelayConnInternal.create_permissions env script c k addrs).state.nonce = nn ∧
    (RelayConnInternal.create_permissions env script c k addrs).result =
      Except.error TurnError.tryAgain ∧
    (RelayConnInternal.refresh_allocation env script c k lt false).state.nonce = nn ∧
    (RelayConnInternal.refresh_allocation env script c k lt false).result =
      Except.error TurnError.tryAgain := by
  refine ⟨?_, ?_, ?_, ?_⟩ <;>
    simp [RelayConnInternal.create_permissions, RelayConnInternal.refresh_allocation,
      h, hc, he, CODE_STALE_NONCE, RelayConnInternal.set_nonce_from_msg, hn]

/-- Witness for C5 at concrete inputs. -/
theorem claimC5_witness :
    (RelayConnInternal.create_permissions exEnv (fun _ => TxOutcome.response resCP438)
      exC 0 [exAddr]).state.nonce = "N2" ∧
    (RelayConnInternal.create_permissions exEnv (fun _ => TxOutcome.response resCP438)
      exC 0 [exAddr]).result = Except.error TurnError.tryAgain ∧
    (RelayConnInternal.refresh_allocation exEnv (fun _ => TxOutcome.response resCP438)
      exC 0 600 false).state.nonce = "N2" ∧
    (RelayConnInternal.refresh_allocation exEnv (fun _ => TxOutcome.response resCP438)
      exC 0 600 false).result = Except.error TurnError.tryAgain :=
  claimC5 exEnv (fun _ => TxOutcome.response resCP438) exC 0 600 [exAddr] resCP438 "N2"
    rfl (by decide) (by decide) (by decide)

lemma create_permissions_events_tx (env : Env) (script : Nat → TxOutcome)
    (c : RelayConnInternal) (k : Nat) (addrs : List SocketAddr) :
    ((RelayConnInternal.create_permissions env script c k addrs).events).all eventIsTx = true := by
  unfold RelayConnInternal.create_permissions
  cases script k with
  | failure e => simp [eventIsTx]
  | response res =>
    by_cases hc : res.typ.cls = MessageClass.errorResponse
    · cases he : res.errorCode with
      | none => simp [hc, he, eventIsTx]
      | some code =>
        by_cases hcode : code = CODE_STALE_NONCE <;> simp [hc, he, hcode, eventIsTx]
    · simp [hc, eventIsTx]

lemma create_perm_events_tx (env : Env) (script : Nat → TxOutcome)
    (c : RelayConnInternal) (k : Nat) (perm : Permission) (addr : SocketAddr) :
    ((RelayConnInternal.create_perm env script c k perm addr).1.events).all eventIsTx = true := by
  unfold RelayConnInternal.create_perm
  by_cases hp : perm.st = PermState.idle
  · cases hr : (RelayConnInternal.create_permissions env script c k [addr]).result with
    | error e =>
      simpa [hp, hr] using create_permissions_events_tx env script c k [addr]
    | ok u =>
      simpa [hp, hr] using create_permissions_events_tx env script c k [addr]
  · simp [hp]

lemma createPermLoop_events_tx (env : Env) (script : Nat → TxOutcome)
    (addr : SocketAddr) :
    ∀ (fuel : Nat) (c : RelayConnInternal) (k : Nat) (perm : Permission),
    ((createPermLoop env script fuel c k perm addr).1.events).all eventIsTx = true := by
  intro fuel
  induction fuel with
  | zero => intro c k perm; simp [createPermLoop]
  | succ m ih =>
    intro c k perm
    simp only [createPermLoop]
    split
    · exact create_perm_events_tx env script c k perm addr
    · simp only [List.all_append, Bool.and_eq_true]
      exact ⟨create_perm_events_tx env script c k perm addr, ih _ _ _⟩

lemma sendToPermStep_events_tx (env : Env) (script : Nat → TxOutcome)
    (c : RelayConnInternal) (k : Nat) (addr : SocketAddr) :
    ((sendToPermStep env script c k addr).1.events).all eventIsTx = true :=
  createPermLoop_events_tx env script addr MAX_RETRY_ATTEMPTS (sendToPermInit c addr).1 k
    (sendToPermInit c addr).2

/-- Claim C1: with the permission step succeeded, send_to dispatches on
the binding state read at the call.  Idle, Request or Failed: the payload
goes out as a Send indication written via the observer, with the initial
ChannelBind task spawned only in the Idle case; Ready or Refresh: the
payload goes out as ChannelData on the binding's channel number, with a
background rebind task additionally spawned when Ready has not been
refreshed for more than 5 minutes (the payload still going out on the
current channel). -/
theorem claimC1 (env : Env) (script : Nat → TxOutcome) (now : Nat)
    (c : RelayConnInternal) (k : Nat) (p : List Nat) (addr : SocketAddr) (b : Binding)
    (hok : (sendToPermStep env script c k addr).1.result = Except.ok ())
    (hb : (sendToPermStep env script c k addr).1.state.bindingMgr.find_by_addr addr = some b) :
    (b.st = BindingState.idle →
      RelayConnInternal.send_to env script now c k p addr =
        ⟨Except.ok (writeLen (Write.sendIndication p addr)),
         (sendToPermStep env script c k addr).1.state,
         (sendToPermStep env script c k addr).1.k,
         (sendToPermStep env script c k addr).1.events ++
           [Event.spawn (SpawnTask.initialBind b.addr b.number
              (sendToPermStep env script c k addr).1.state.nonce
              (sendToPermStep env script c k addr).1.state.integrity),
            Event.write (Write.sendIndication p addr) env.turnServerAddr]⟩) ∧
    (b.st = BindingState.request ∨ b.st = BindingState.failed →
      RelayConnInternal.send_to env script now c k p addr =
        ⟨Except.ok (writeLen (Write.sendIndication p addr)),
         (sendToPermStep env script c k addr).1.state,
         (sendToPermStep env script c k addr).1.k,
         (sendToPermStep env script c k addr).1.events ++
           [Event.write (Write.sendIndication p addr) env.turnServerAddr]⟩) ∧
    (b.st = BindingState.ready → now - b.refreshedAt ≤ 5 * 60 →
      RelayConnInternal.send_to env script now c k p addr =
        ⟨Except.ok (writeLen (Write.channelData b.number p)),
         (sendToPermStep env script c k addr).1.state,
         (sendToPermStep env script c k addr).1.k,
         (sendToPermStep env script c k addr).1.events ++
           [Event.write (Write.channelData b.number p) env.turnServerAddr]⟩) ∧
    (b.st = BindingState.ready → 5 * 60 < now - b.refreshedAt →
      RelayConnInternal.send_to env script now c k p addr =
        ⟨Except.ok (writeLen (Write.channelData b.number p)),
         (sendToPermStep env script c k addr).1.state,
         (sendToPermStep env script c k addr).1.k,
         (sendToPermStep env script c k addr).1.events ++
           [Event.spawn (SpawnTask.refreshBind b.addr b.number
              (sendToPermStep env script c k addr).1.state.nonce
              (sendToPermStep env script c k addr).1.state.integrity),
            Event.write (Write.channelData b.number p) env.turnServerAddr]⟩) ∧
    (b.st = BindingState.refresh →
      RelayConnInternal.send_to env script now c k p addr =
        ⟨Except.ok (writeLen (Write.channelData b.number p)),
         (sendToPermStep env script c k addr).1.state,
         (sendToPermStep env script c k addr).1.k,
         (sendToPermStep env script c k addr).1.events ++
           [Event.write (Write.channelData b.number p) env.turnServerAddr]⟩) := by
  refine ⟨?_, ?_, ?_, ?_, ?_⟩
  · intro hst
    simp [RelayConnInternal.send_to, hok, sendToDispatch, hb, dispatchWithBinding, hst]
  · intro hst
    rcases hst with hst | hst <;>
      simp [RelayConnInternal.send_to, hok, sendToDispatch, hb, dispatchWithBinding, hst]
  · intro hst htime
    have hnot : ¬ (5 * 60 < now - b.refreshedAt) := by omega
    simp [RelayConnInternal.send_to, hok, sendToDispatch, hb, dispatchWithBinding, hst,
      send_channel_data, hnot]
  · intro hst htime
    simp [RelayConnInternal.send_to, hok, sendToDispatch, hb, dispatchWithBinding, hst,
      send_channel_data, htime]
  · intro hst
    simp [RelayConnInternal.send_to, hok, sendToDispatch, hb, dispatchWithBinding, hst,
      send_channel_data]

/-- A state whose permission for IP 1 is already Permitted and which holds
one Ready binding for `exAddr`, refreshed at instant 100. -/
def exCReady : RelayConnInternal :=
  ⟨⟨8, 1⟩, ⟨[(1, ⟨PermState.permitted⟩)]⟩,
   ⟨[⟨0x4000, exAddr, BindingState.ready, 100⟩]⟩, "nonce0", "integ", 600⟩

/-- Witness for C1: at instant 200 (fresh binding) the payload goes out as
ChannelData with no task spawned. -/
theorem claimC1_witness :
    RelayConnInternal.send_to exEnv (fun _ => TxOutcome.response resCPOk) 200
      exCReady 0 [1, 2] exAddr =
      ⟨Except.ok (writeLen (Write.channelData 0x4000 [1, 2])),
       (sendToPermStep exEnv (fun _ => TxOutcome.response resCPOk) exCReady 0 exAddr).1.state,
       (sendToPermStep exEnv (fun _ => TxOutcome.response resCPOk) exCReady 0 exAddr).1.k,
       (sendToPermStep exEnv (fun _ => TxOutcome.response resCPOk) exCReady 0 exAddr).1.events ++
         [Event.write (Write.channelData 0x4000 [1, 2]) exEnv.turnServerAddr]⟩ :=
  (claimC1 exEnv (fun _ => TxOutcome.response resCPOk) 200 exCReady 0 [1, 2] exAddr
      ⟨0x4000, exAddr, BindingState.ready, 100⟩ (by decide) (by decide)).2.2.1
    (by decide) (by decide)

/-- Claim C10: when the permission step succeeded, no binding exists for
the peer address and `BindingManager::create` fails (channel-number space
exhausted), send_to fails with the "Addr not found" error; the events of
the call are those of the permission step only, all of them transactions
(in particular, nothing is written to the network via `write_to`). -/
theorem claimC10 (env : Env) (script : Nat → TxOutcome) (now : Nat)
    (c : RelayConnInternal) (k : Nat) (p : List Nat) (addr : SocketAddr)
    (hok : (sendToPermStep env script c k addr).1.result = Except.ok ())
    (hfind : (sendToPermStep env script c k addr).1.state.bindingMgr.find_by_addr addr = none)
    (hcreate : (sendToPermStep env script c k addr).1.state.bindingMgr.create addr now = none) :
    (RelayConnInternal.send_to env script now c k p addr).result =
      Except.error TurnError.addrNotFound ∧
    (RelayConnInternal.send_to env script now c k p addr).events =
      (sendToPermStep env script c k addr).1.events ∧
    ((RelayConnInternal.send_to env script now c k p addr).events).all eventIsTx = true := by
  refine ⟨?_, ?_, ?_⟩ <;>
    simp [RelayConnInternal.send_to, hok, sendToDispatch, hfind, hcreate,
      sendToPermStep_events_tx]

lemma findFreeChannelNumber_none (used : List Nat) :
    ∀ (fuel n : Nat), (∀ i, i < fuel → (n + i) ∈ used) →
    findFreeChannelNumber used fuel n = none := by
  intro fuel
  induction fuel with
  | zero => intro n h; simp [findFreeChannelNumber]
  | succ m ih =>
    intro n h
    have h0 : n ∈ used := by simpa using h 0 (Nat.succ_pos m)
    have hrest : ∀ i, i < m → (n + 1 + i) ∈ used := by
      intro i hi
      have := h (i + 1) (by omega)
      have harith : n + (i + 1) = n + 1 + i := by omega
      rwa [harith] at this
    simp [findFreeChannelNumber, h0, ih (n + 1) hrest]

/-- A binding manager in which every channel number in [0x4000, 0x7FFF]
is taken. -/
def exhaustedBM : BindingManager :=
  ⟨(List.range 16384).map (fun i => ⟨0x4000 + i, ⟨i, 0⟩, BindingState.idle, 0⟩)⟩

lemma BindingManager.create_def (bm : BindingManager) (addr : SocketAddr) (now : Nat) :
    bm.create addr now =
      match findFreeChannelNumber (bm.bindings.map (fun b => b.number))
          (MAX_CHANNEL_NUMBER + 1 - MIN_CHANNEL_NUMBER) MIN_CHANNEL_NUMBER with
      | none => none
      | some n =>
        some (⟨n, addr, BindingState.idle, now⟩,
          ⟨bm.bindings ++ [⟨n, addr, BindingState.idle, now⟩]⟩) := rfl

lemma exhaustedBM_used : ∀ i, i < MAX_CHANNEL_NUMBER + 1 - MIN_CHANNEL_NUMBER →
    (MIN_CHANNEL_NUMBER + i) ∈ exhaustedBM.bindings.map (fun b => b.number) := by
  intro i hi
  have hi16 : i < 16384 := by
    simpa [MAX_CHANNEL_NUMBER, MIN_CHANNEL_NUMBER] using hi
  simp only [exhaustedBM, List.map_map]
  refine List.mem_map.mpr ⟨i, List.mem_range.mpr hi16, ?_⟩
  simp [MIN_CHANNEL_NUMBER, Function.comp]

lemma exhaustedBM_create_none (addr : SocketAddr) (now : Nat) :
    exhaustedBM.create addr now = none := by
  rw [BindingManager.create_def, findFreeChannelNumber_none _ _ _ exhaustedBM_used]

lemma exhaustedBM_find_none (addr : SocketAddr) (hport : addr.port ≠ 0) :
    exhaustedBM.find_by_addr addr = none := by
  show List.find? (fun b => decide (b.addr = addr)) exhaustedBM.bindings = none
  rw [List.find?_eq_none]
  intro b hb
  simp only [exhaustedBM] at hb
  rcases List.mem_map.mp hb with ⟨i, hi, rfl⟩
  simp only [decide_eq_true_eq]
  intro hcontra
  exact hport (by rw [← hcontra])

/-- A state whose permission for IP 5 is Permitted and whose channel
number space is exhausted. -/
def exCFull : RelayConnInternal :=
  ⟨⟨8, 1⟩, ⟨[(5, ⟨PermState.permitted⟩)]⟩, exhaustedBM, "nonce0", "integ", 600⟩

/-- The peer address used in the C10 witness (IP 5, port 700). -/
def exAddrFull : SocketAddr := ⟨5, 700⟩

/-- Witness for C10 at a concrete exhausted state. -/
theorem claimC10_witness :
    (RelayConnInternal.send_to exEnv (fun _ => TxOutcome.response resCPOk) 0
      exCFull 0 [7] exAddrFull).result = Except.error TurnError.addrNotFound ∧
    (RelayConnInternal.send_to exEnv (fun _ => TxOutcome.response resCPOk) 0
      exCFull 0 [7] exAddrFull).events =
      (sendToPermStep exEnv (fun _ => TxOutcome.response resCPOk) exCFull 0 exAddrFull).1.events ∧
    ((RelayConnInternal.send_to exEnv (fun _ => TxOutcome.response resCPOk) 0
      exCFull 0 [7] exAddrFull).events).all eventIsTx = true := by
  have hstate : (sendToPermStep exEnv (fun _ => TxOutcome.response resCPOk)
      exCFull 0 exAddrFull).1.state = exCFull := rfl
  refine claimC10 exEnv (fun _ => TxOutcome.response resCPOk) 0 exCFull 0 [7] exAddrFull
    rfl ?_ ?_
  · rw [hstate]
    exact exhaustedBM_find_none exAddrFull (by decide)
  · rw [hstate]
    exact exhaustedBM_create_none exAddrFull 0

lemma PermissionMap.find_insert (pm : PermissionMap) (addr : SocketAddr) (p : Permission) :
    (pm.insert addr p).find addr = some p := by
  simp [PermissionMap.insert, PermissionMap.find, List.find?]

lemma PermissionMap.find_delete (pm : PermissionMap) (addr : SocketAddr) :
    (pm.delete addr).find addr = none := by
  unfold PermissionMap.delete PermissionMap.find
  rw [Option.map_eq_none', List.find?_eq_none]
  intro e he
  have := List.of_mem_filter he
  simp only [decide_eq_true_eq] at this ⊢
  exact this

lemma sendToDispatch_permMap (env : Env) (now : Nat) (c : RelayConnInternal) (k : Nat)
    (p : List Nat) (addr : SocketAddr) :
    (sendToDispatch env now c k p addr).state.permMap = c.permMap := by
  unfold sendToDispatch dispatchWithBinding
  split
  · split <;> rfl
  · split
    · rfl
    · split <;> rfl

lemma sendToDispatch_no_tryAgain (env : Env) (now : Nat) (c : RelayConnInternal) (k : Nat)
    (p : List Nat) (addr : SocketAddr) :
    (sendToDispatch env now c k p addr).result ≠ Except.error TurnError.tryAgain := by
  unfold sendToDispatch dispatchWithBinding
  split
  · split <;> simp [send_channel_data]
  · split
    · simp
    · split <;> simp [send_channel_data]

lemma createPermLoop_permitted (env : Env) (script : Nat → TxOutcome) (addr : SocketAddr) :
    ∀ (fuel : Nat) (c : RelayConnInternal) (k : Nat),
    createPermLoop env script fuel c k ⟨PermState.permitted⟩ addr =
      (⟨Except.ok (), c, k, []⟩, ⟨PermState.permitted⟩) := by
  intro fuel
  induction fuel with
  | zero => intro c k; rfl
  | succ m ih =>
    intro c k
    simp [createPermLoop, RelayConnInternal.create_perm, ih]

lemma createPermLoop_idle_ok (env : Env) (script : Nat → TxOutcome)
    (fuel : Nat) (c : RelayConnInternal) (k : Nat) (perm : Permission)
    (addr : SocketAddr) (res : Message)
    (hp : perm.st = PermState.idle)
    (h : script k = TxOutcome.response res)
    (hc : res.typ.cls ≠ MessageClass.errorResponse) :
    createPermLoop env script (fuel + 1) c k perm addr =
      (⟨Except.ok (), c, k + 1,
        [Event.tx (OutMsg.createPermission [addr] env.username env.realm c.nonce c.integrity)
          env.turnServerAddr false]⟩,
       ⟨PermState.permitted⟩) := by
  have hcp : RelayConnInternal.create_perm env script c k perm addr =
      (⟨Except.ok (), c, k + 1,
        [Event.tx (OutMsg.createPermission [addr] env.username env.realm c.nonce c.integrity)
          env.turnServerAddr false]⟩,
       ⟨PermState.permitted⟩) := by
    simp [RelayConnInternal.create_perm, hp, RelayConnInternal.create_permissions, h, hc]
  simp [createPermLoop, hcp, createPermLoop_permitted]

lemma createPermLoop_idle_err (env : Env) (script : Nat → TxOutcome)
    (fuel : Nat) (c : RelayConnInternal) (k : Nat) (perm : Permission)
    (addr : SocketAddr) (res : Message) (code : Nat)
    (hp : perm.st = PermState.idle)
    (h : script k = TxOutcome.response res)
    (hc : res.typ.cls = MessageClass.errorResponse)
    (he : res.errorCode = some code)
    (hne : code ≠ 438) :
    createPermLoop env script (fuel + 1) c k perm addr =
      (⟨Except.error (TurnError.respTypeCode res.typ code),
        { c with permMap := c.permMap.delete addr }, k + 1,
        [Event.tx (OutMsg.createPermission [addr] env.username env.realm c.nonce c.integrity)
          env.turnServerAddr false]⟩,
       perm) := by
  have hcp : RelayConnInternal.create_perm env script c k perm addr =
      (⟨Except.error (TurnError.respTypeCode res.typ code),
        { c with permMap := c.permMap.delete addr }, k + 1,
        [Event.tx (OutMsg.createPermission [addr] env.username env.realm c.nonce c.integrity)
          env.turnServerAddr false]⟩,
       perm) := by
    simp [RelayConnInternal.create_perm, hp, RelayConnInternal.create_permissions, h, hc, he,
      CODE_STALE_NONCE, hne]
  simp [createPermLoop, hcp]

/-- A stale-nonce outcome: an error response with ERROR-CODE 438. -/
def isStale438 (o : TxOutcome) : Prop :=
  ∃ res, o = TxOutcome.response res ∧
    res.typ.cls = MessageClass.errorResponse ∧ res.errorCode = some 438

lemma createPermLoop_succ_tryAgain (env : Env) (script : Nat → TxOutcome)
    (fuel : Nat) (c : RelayConnInternal) (k : Nat) (perm : Permission) (addr : SocketAddr)
    (h : (RelayConnInternal.create_perm env script c k perm addr).1.result =
      Except.error TurnError.tryAgain)
    (hfuel : fuel ≠ 0) :
    createPermLoop env script (fuel + 1) c k perm addr =
      ((⟨(createPermLoop env script fuel
            (RelayConnInternal.create_perm env script c k perm addr).1.state
            (RelayConnInternal.create_perm env script c k perm addr).1.k
            (RelayConnInternal.create_perm env script c k perm addr).2 addr).1.result,
         (createPermLoop env script fuel
            (RelayConnInternal.create_perm env script c k perm addr).1.state
            (RelayConnInternal.create_perm env script c k perm addr).1.k
            (RelayConnInternal.create_perm env script c k perm addr).2 addr).1.state,
         (createPermLoop env script fuel
            (RelayConnInternal.create_perm env script c k perm addr).1.state
            (RelayConnInternal.create_perm env script c k perm addr).1.k
            (RelayConnInternal.create_perm env script c k perm addr).2 addr).1.k,
         (RelayConnInternal.create_perm env script c k perm addr).1.events ++
           (createPermLoop env script fuel
              (RelayConnInternal.create_perm env script c k perm addr).1.state
              (RelayConnInternal.create_perm env script c k perm addr).1.k
              (RelayConnInternal.create_perm env script c k perm addr).2 addr).1.events⟩ :
          StepResult RelayConnInternal Unit),
       (createPermLoop env script fuel
          (RelayConnInternal.create_perm env script c k perm addr).1.state
          (RelayConnInternal.create_perm env script c k perm addr).1.k
          (RelayConnInternal.create_perm env script c k perm addr).2 addr).2) := by
  have hbeq : (fuel == 0) = false := by
    simpa using hfuel
  simp only [createPermLoop, h, ne_eq, decide_not, hbeq]
  simp

lemma createPermLoop_allStale (env : Env) (script : Nat → TxOutcome) (addr : SocketAddr) :
    ∀ (fuel : Nat) (c : RelayConnInternal) (k : Nat) (perm : Permission),
    perm.st = PermState.idle →
    (∀ i, i ≤ fuel → isStale438 (script (k + i))) →
    (createPermLoop env script (fuel + 1) c k perm addr).1.result =
      Except.error TurnError.tryAgain ∧
    (createPermLoop env script (fuel + 1) c k perm addr).1.k = k + fuel + 1 := by
  intro fuel
  induction fuel with
  | zero =>
    intro c k perm hp h
    obtain ⟨res, hres, hcls, hcode⟩ := h 0 (Nat.le_refl 0)
    rw [Nat.add_zero] at hres
    have hcp : RelayConnInternal.create_perm env script c k perm addr =
        (⟨Except.error TurnError.tryAgain,
          { c.set_nonce_from_msg res with
              permMap := (c.set_nonce_from_msg res).permMap.delete addr }, k + 1,
          [Event.tx (OutMsg.createPermission [addr] env.username env.realm c.nonce c.integrity)
            env.turnServerAddr false]⟩,
         perm) := by
      simp [RelayConnInternal.create_perm, hp, RelayConnInternal.create_permissions, hres,
        hcls, hcode, CODE_STALE_NONCE]
    simp [createPermLoop, hcp]
  | succ m ih =>
    intro c k perm hp h
    obtain ⟨res, hres, hcls, hcode⟩ := h 0 (Nat.zero_le _)
    rw [Nat.add_zero] at hres
    have hres' : (RelayConnInternal.create_perm env script c k perm addr).1.result =
        Except.error TurnError.tryAgain := by
      simp [RelayConnInternal.create_perm, hp, RelayConnInternal.create_permissions, hres,
        hcls, hcode, CODE_STALE_NONCE]
    have hperm' : (RelayConnInternal.create_perm env script c k perm addr).2 = perm := by
      simp [RelayConnInternal.create_perm, hp, RelayConnInternal.create_permissions, hres,
        hcls, hcode, CODE_STALE_NONCE]
    have hk' : (RelayConnInternal.create_perm env script c k perm addr).1.k = k + 1 := by
      simp [RelayConnInternal.create_perm, hp, RelayConnInternal.create_permissions, hres,
        hcls, hcode, CODE_STALE_NONCE]
    have hshift : ∀ i, i ≤ m → isStale438 (script (k + 1 + i)) := by
      intro i hi
      have := h (i + 1) (by omega)
      have harith : k + (i + 1) = k + 1 + i := by omega
      rwa [harith] at this
    have ihm := ih (RelayConnInternal.create_perm env script c k perm addr).1.state
      (k + 1) perm hp hshift
    rw [createPermLoop_succ_tryAgain env script (m + 1) c k perm addr hres'
      (Nat.succ_ne_zero m)]
    simp only [hperm', hk']
    exact ⟨ihm.1, ihm.2.trans (by omega)⟩

/-- Counterexample to claim C2 as stated: a first send_to to a fresh peer
whose CreatePermission transaction succeeds (the single CreatePermission
transaction is visible in the event list and the call returns the written
byte count), yet the permission stored in the table for that IP is still
in state Idle afterwards — `create_perm` mutates only the local copy and
never writes it back. -/
theorem claimC2_counterexample :
    (RelayConnInternal.send_to exEnv (fun _ => TxOutcome.response resCPOk) 0
      exC 0 [7] exAddr).events =
      [Event.tx (OutMsg.createPermission [exAddr] "user" "realm" "nonce0" "integ")
        exEnv.turnServerAddr false,
       Event.spawn (SpawnTask.initialBind exAddr 0x4000 "nonce0" "integ"),
       Event.write (Write.sendIndication [7] exAddr) exEnv.turnServerAddr] ∧
    (RelayConnInternal.send_to exEnv (fun _ => TxOutcome.response resCPOk) 0
      exC 0 [7] exAddr).result = Except.ok (writeLen (Write.sendIndication [7] exAddr)) ∧
    (RelayConnInternal.send_to exEnv (fun _ => TxOutcome.response resCPOk) 0
      exC 0 [7] exAddr).state.permMap.find exAddr = some ⟨PermState.idle⟩ := by
  refine ⟨?_, ?_, ?_⟩ <;> decide

/-- Claim C2 as amended: a fresh peer address gets a permission record
created in state Idle; after the CreatePermission transaction succeeds the
record stored in the table is still that Idle record (only the local copy
becomes Permitted — there is no write-back); and on a CreatePermission
failure other than stale-nonce the permission is deleted from the table
and the error surfaced. -/
theorem claimC2 (env : Env) (script₁ script₂ : Nat → TxOutcome) (now : Nat)
    (c : RelayConnInternal) (k : Nat) (p : List Nat) (addr : SocketAddr)
    (res₁ res₂ : Message) (code : Nat)
    (hfind : c.permMap.find addr = none)
    (h1 : script₁ k = TxOutcome.response res₁)
    (h1c : res₁.typ.cls ≠ MessageClass.errorResponse)
    (h2 : script₂ k = TxOutcome.response res₂)
    (h2c : res₂.typ.cls = MessageClass.errorResponse)
    (h2e : res₂.errorCode = some code)
    (hne : code ≠ 438) :
    (RelayConnInternal.send_to env script₁ now c k p addr).state.permMap.find addr =
      some ⟨PermState.idle⟩ ∧
    (RelayConnInternal.send_to env script₂ now c k p addr).state.permMap.find addr = none ∧
    (RelayConnInternal.send_to env script₂ now c k p addr).result =
      Except.error (TurnError.respTypeCode res₂.typ code) := by
  have hinit : sendToPermInit c addr =
      ({ c with permMap := c.permMap.insert addr {} }, {}) := by
    simp [sendToPermInit, hfind]
  have hL1 : sendToPermStep env script₁ c k addr =
      (⟨Except.ok (), { c with permMap := c.permMap.insert addr {} }, k + 1,
        [Event.tx (OutMsg.createPermission [addr] env.username env.realm c.nonce c.integrity)
          env.turnServerAddr false]⟩,
       ⟨PermState.permitted⟩) := by
    unfold sendToPermStep
    rw [hinit]
    exact createPermLoop_idle_ok env script₁ 2
      { c with permMap := c.permMap.insert addr {} } k {} addr res₁ rfl h1 h1c
  have hL2 : sendToPermStep env script₂ c k addr =
      (⟨Except.error (TurnError.respTypeCode res₂.typ code),
        { c with permMap := (c.permMap.insert addr {}).delete addr }, k + 1,
        [Event.tx (OutMsg.createPermission [addr] env.username env.realm c.nonce c.integrity)
          env.turnServerAddr false]⟩,
       ⟨PermState.idle⟩) := by
    unfold sendToPermStep
    rw [hinit]
    exact createPermLoop_idle_err env script₂ 2
      { c with permMap := c.permMap.insert addr {} } k {} addr res₂ code rfl h2 h2c h2e hne
  refine ⟨?_, ?_, ?_⟩
  · simp only [RelayConnInternal.send_to, hL1]
    simp only [sendToDispatch_permMap]
    exact PermissionMap.find_insert c.permMap addr {}
  · simp only [RelayConnInternal.send_to, hL2]
    exact PermissionMap.find_delete _ addr
  · simp only [RelayConnInternal.send_to, hL2]

/-- Witness for the amended C2 at concrete inputs. -/
theorem claimC2_witness :
    (RelayConnInternal.send_to exEnv (fun _ => TxOutcome.response resCPOk) 0
      exC 0 [7] exAddr).state.permMap.find exAddr = some ⟨PermState.idle⟩ ∧
    (RelayConnInternal.send_to exEnv (fun _ => TxOutcome.response resCP403) 0
      exC 0 [7] exAddr).state.permMap.find exAddr = none ∧
    (RelayConnInternal.send_to exEnv (fun _ => TxOutcome.response resCP403) 0
      exC 0 [7] exAddr).result =
      Except.error (TurnError.respTypeCode resCP403.typ 403) :=
  claimC2 exEnv (fun _ => TxOutcome.response resCPOk) (fun _ => TxOutcome.response resCP403)
    0 exC 0 [7] exAddr resCPOk resCP403 403
    (by decide) rfl (by decide) rfl (by decide) (by decide) (by decide)

/-- Counterexample to claim C3 as stated: when the server answers the
CreatePermission with stale-nonce 438 on all three attempts, send_to
returns the TryAgain error to its caller — the error is surfaced to the
application, not absorbed (the oracle index 3 shows three transactions
were attempted). -/
theorem claimC3_counterexample :
    (RelayConnInternal.send_to exEnv (fun _ => TxOutcome.response resCP438) 0
      exC 0 [7] exAddr).result = Except.error TurnError.tryAgain ∧
    (RelayConnInternal.send_to exEnv (fun _ => TxOutcome.response resCP438) 0
      exC 0 [7] exAddr).k = 3 := by
  refine ⟨?_, ?_⟩ <;> decide

/-- Claim C3 as amended: the stale-nonce outcome of the synchronous
CreatePermission step is retried locally up to 3 attempts; when all three
attempts fail with stale-nonce, send_to returns TryAgain to the
application (three transactions consumed); when the first attempt
succeeds, TryAgain is never the result of send_to; and when the first
attempt fails with an error other than stale-nonce, that error (not
TryAgain) is surfaced. -/
theorem claimC3 (env : Env) (script script₁ script₂ : Nat → TxOutcome) (now : Nat)
    (c : RelayConnInternal) (k : Nat) (p : List Nat) (addr : SocketAddr)
    (res₁ res₂ : Message) (code : Nat)
    (hfind : c.permMap.find addr = none)
    (hall : ∀ i, i ≤ 2 → isStale438 (script (k + i)))
    (h1 : script₁ k = TxOutcome.response res₁)
    (h1c : res₁.typ.cls ≠ MessageClass.errorResponse)
    (h2 : script₂ k = TxOutcome.response res₂)
    (h2c : res₂.typ.cls = MessageClass.errorResponse)
    (h2e : res₂.errorCode = some code)
    (hne : code ≠ 438) :
    ((RelayConnInternal.send_to env script now c k p addr).result =
        Except.error TurnError.tryAgain ∧
      (RelayConnInternal.send_to env script now c k p addr).k = k + 3) ∧
    (RelayConnInternal.send_to env script₁ now c k p addr).result ≠
      Except.error TurnError.tryAgain ∧
    (RelayConnInternal.send_to env script₂ now c k p addr).result =
      Except.error (TurnError.respTypeCode res₂.typ code) := by
  have hinit : sendToPermInit c addr =
      ({ c with permMap := c.permMap.insert addr {} }, {}) := by
    simp [sendToPermInit, hfind]
  have hstale := createPermLoop_allStale env script addr 2
    { c with permMap := c.permMap.insert addr {} } k {} rfl hall
  have hLres : (sendToPermStep env script c k addr).1.result =
      Except.error TurnError.tryAgain := by
    unfold sendToPermStep
    rw [hinit]
    exact hstale.1
  have hLk : (sendToPermStep env script c k addr).1.k = k + 3 := by
    unfold sendToPermStep
    rw [hinit]
    exact hstale.2.trans (by omega)
  have hL1 : sendToPermStep env script₁ c k addr =
      (⟨Except.ok (), { c with permMap := c.permMap.insert addr {} }, k + 1,
        [Event.tx (OutMsg.createPermission [addr] env.username env.realm c.nonce c.integrity)
          env.turnServerAddr false]⟩,
       ⟨PermState.permitted⟩) := by
    unfold sendToPermStep
    rw [hinit]
    exact createPermLoop_idle_ok env script₁ 2
      { c with permMap := c.permMap.insert addr {} } k {} addr res₁ rfl h1 h1c
  have hL2 : sendToPermStep env script₂ c k addr =
      (⟨Except.error (TurnError.respTypeCode res₂.typ code),
        { c with permMap := (c.permMap.insert addr {}).delete addr }, k + 1,
        [Event.tx (OutMsg.createPermission [addr] env.username env.realm c.nonce c.integrity)
          env.turnServerAddr false]⟩,
       ⟨PermState.idle⟩) := by
    unfold sendToPermStep
    rw [hinit]
    exact createPermLoop_idle_err env script₂ 2
      { c with permMap := c.permMap.insert addr {} } k {} addr res₂ code rfl h2 h2c h2e hne
  refine ⟨⟨?_, ?_⟩, ?_, ?_⟩
  · cases hLr : (sendToPermStep env script c k addr).1 with
    | mk r st kk ev =>
      simp only [RelayConnInternal.send_to, hLr]
      have := hLres
      rw [hLr] at this
      simp only [] at this
      rw [this]
  · cases hLr : (sendToPermStep env script c k addr).1 with
    | mk r st kk ev =>
      have hr := hLres
      have hk := hLk
      rw [hLr] at hr hk
      simp only [] at hr hk
      simp only [RelayConnInternal.send_to, hLr, hr]
      exact hk
  · simp only [RelayConnInternal.send_to, hL1]
    exact sendToDispatch_no_tryAgain env now
      { c with permMap := c.permMap.insert addr {} } (k + 1) p addr
  · simp only [RelayConnInternal.send_to, hL2]

/-- Witness for the amended C3 at concrete inputs. -/
theorem claimC3_witness :
    ((RelayConnInternal.send_to exEnv (fun _ => TxOutcome.response resCP438) 0
        exC 0 [7] exAddr).result = Except.error TurnError.tryAgain ∧
      (RelayConnInternal.send_to exEnv (fun _ => TxOutcome.response resCP438) 0
        exC 0 [7] exAddr).k = 0 + 3) ∧
    (RelayConnInternal.send_to exEnv (fun _ => TxOutcome.response resCPOk) 0
      exC 0 [7] exAddr).result ≠ Except.error TurnError.tryAgain ∧
    (RelayConnInternal.send_to exEnv (fun _ => TxOutcome.response resCP403) 0
      exC 0 [7] exAddr).result =
      Except.error (TurnError.respTypeCode resCP403.typ 403) :=
  claimC3 exEnv (fun _ => TxOutcome.response resCP438)
    (fun _ => TxOutcome.response resCPOk) (fun _ => TxOutcome.response resCP403)
    0 exC 0 [7] exAddr resCPOk resCP403 403
    (by decide) (fun i _ => ⟨resCP438, rfl, by decide, by decide⟩)
    rfl (by decide) rfl (by decide) (by decide) (by decide)

lemma BindingManager.find_modify (bm : BindingManager) (addr : SocketAddr)
    (f : Binding → Binding) (hf : ∀ b, (f b).addr = b.addr) :
    (bm.modify_by_addr addr f).find_by_addr addr = (bm.find_by_addr addr).map f := by
  unfold BindingManager.modify_by_addr BindingManager.find_by_addr
  induction bm.bindings with
  | nil => rfl
  | cons b t ih =>
    by_cases hb : b.addr = addr
    · simp [List.find?, hb, hf b]
    · simp only [List.map_cons, if_neg hb, List.find?]
      rw [show (decide (b.addr = addr)) = false by simpa using hb]
      exact ih

lemma BindingManager.find_deleted_by_addr (bm : BindingManager) (addr : SocketAddr) :
    (bm.delete_by_addr addr).find_by_addr addr = none := by
  unfold BindingManager.delete_by_addr BindingManager.find_by_addr
  rw [List.find?_eq_none]
  intro b hb
  have := List.of_mem_filter hb
  simp only [decide_eq_true_eq] at this ⊢
  exact this

/-- Counterexample to claim C6 as stated: a successful *initial* bind task
sets the binding Ready but leaves `refreshed_at` unchanged at its creation
value 7 (the success arm of the initial task contains no clock read at
all); only the refresh rebind task updates it.  The claim's "its
refreshed_at is updated" is therefore false for the initial bind task. -/
theorem claimC6_counterexample :
    (⟨[⟨0x4000, exAddr, BindingState.idle, 7⟩]⟩ : BindingManager).find_by_addr exAddr =
      some ⟨0x4000, exAddr, BindingState.idle, 7⟩ ∧
    (initialBindTask exEnv (fun _ => TxOutcome.response resCBOk) 0
      ⟨[⟨0x4000, exAddr, BindingState.idle, 7⟩]⟩ exAddr 0x4000
      "nonce0" "integ").1.find_by_addr exAddr =
      some ⟨0x4000, exAddr, BindingState.ready, 7⟩ := by
  refine ⟨?_, ?_⟩ <;> decide

/-- Claim C6 as amended: for a background ChannelBind task over an
existing binding — when the bind transaction succeeds, the refresh rebind
task sets the binding Ready and updates its refreshed_at to the completion
instant, while the initial bind task sets it Ready leaving refreshed_at
unchanged; when it fails with UnexpectedResponse (response type other than
MessageType(ChannelBind, SuccessResponse)), both tasks set the binding to
Failed and keep it; when it fails with any other error, both tasks delete
the binding from the binding manager. -/
theorem claimC6 (env : Env) (sOk sUn sF : Nat → TxOutcome) (k nowDone : Nat)
    (bm : BindingManager) (addr : SocketAddr) (b : Binding) (number : Nat)
    (nonce integrity : String) (resOk resUn : Message) (e : TurnError)
    (hb : bm.find_by_addr addr = some b)
    (hok : sOk k = TxOutcome.response resOk)
    (hrt : resOk.typ = ⟨MsgMethod.channelBind, MessageClass.successResponse⟩)
    (hun : sUn k = TxOutcome.response resUn)
    (hrt2 : resUn.typ ≠ ⟨MsgMethod.channelBind, MessageClass.successResponse⟩)
    (hfl : sF k = TxOutcome.failure e)
    (he : e ≠ TurnError.unexpectedResponse) :
    (initialBindTask env sOk k bm addr number nonce integrity).1.find_by_addr addr =
      some { b with st := BindingState.ready } ∧
    (refreshBindTask env sOk k nowDone bm addr number nonce integrity).1.find_by_addr addr =
      some { b with st := BindingState.ready, refreshedAt := nowDone } ∧
    (initialBindTask env sUn k bm addr number nonce integrity).1.find_by_addr addr =
      some { b with st := BindingState.failed } ∧
    (refreshBindTask env sUn k nowDone bm addr number nonce integrity).1.find_by_addr addr =
      some { b with st := BindingState.failed } ∧
    (initialBindTask env sF k bm addr number nonce integrity).1.find_by_addr addr = none ∧
    (refreshBindTask env sF k nowDone bm addr number nonce integrity).1.find_by_addr addr =
      none := by
  refine ⟨?_, ?_, ?_, ?_, ?_, ?_⟩
  · simp only [initialBindTask, RelayConnInternal.bind, hok, hrt, if_true, eq_self_iff_true]
    rw [BindingManager.find_modify
        (bm.modify_by_addr addr fun b => { b with st := BindingState.request }) addr
        (fun b => { b with st := BindingState.ready }) (fun _ => rfl),
      BindingManager.find_modify bm addr
        (fun b => { b with st := BindingState.request }) (fun _ => rfl), hb]
    rfl
  · simp only [refreshBindTask, RelayConnInternal.bind, hok, hrt, if_true, eq_self_iff_true]
    rw [BindingManager.find_modify
        (bm.modify_by_addr addr fun b => { b with st := BindingState.refresh }) addr
        (fun b => { b with refreshedAt := nowDone, st := BindingState.ready }) (fun _ => rfl),
      BindingManager.find_modify bm addr
        (fun b => { b with st := BindingState.refresh }) (fun _ => rfl), hb]
    rfl
  · simp only [initialBindTask, RelayConnInternal.bind, hun, if_neg hrt2]
    simp only [ne_eq, not_true_eq_false, if_neg, reduceIte]
    rw [BindingManager.find_modify
        (bm.modify_by_addr addr fun b => { b with st := BindingState.request }) addr
        (fun b => { b with st := BindingState.failed }) (fun _ => rfl),
      BindingManager.find_modify bm addr
        (fun b => { b with st := BindingState.request }) (fun _ => rfl), hb]
    rfl
  · simp only [refreshBindTask, RelayConnInternal.bind, hun, if_neg hrt2]
    simp only [ne_eq, not_true_eq_false, if_neg, reduceIte]
    rw [BindingManager.find_modify
        (bm.modify_by_addr addr fun b => { b with st := BindingState.refresh }) addr
        (fun b => { b with st := BindingState.failed }) (fun _ => rfl),
      BindingManager.find_modify bm addr
        (fun b => { b with st := BindingState.refresh }) (fun _ => rfl), hb]
    rfl
  · simp only [initialBindTask, RelayConnInternal.bind, hfl, if_pos he]
    exact BindingManager.find_deleted_by_addr _ addr
  · simp only [refreshBindTask, RelayConnInternal.bind, hfl, if_pos he]
    exact BindingManager.find_deleted_by_addr _ addr

/-- Witness for the amended C6 at concrete inputs. -/
theorem claimC6_witness :
    (initialBindTask exEnv (fun _ => TxOutcome.response resCBOk) 0
      ⟨[⟨0x4000, exAddr, BindingState.idle, 7⟩]⟩ exAddr 0x4000
      "nonce0" "integ").1.find_by_addr exAddr =
      some { (⟨0x4000, exAddr, BindingState.idle, 7⟩ : Binding) with
        st := BindingState.ready } ∧
    (refreshBindTask exEnv (fun _ => TxOutcome.response resCBOk) 0 999
      ⟨[⟨0x4000, exAddr, BindingState.idle, 7⟩]⟩ exAddr 0x4000
      "nonce0" "integ").1.find_by_addr exAddr =
      some { (⟨0x4000, exAddr, BindingState.idle, 7⟩ : Binding) with
        st := BindingState.ready, refreshedAt := 999 } ∧
    (initialBindTask exEnv (fun _ => TxOutcome.response resCB400) 0
      ⟨[⟨0x4000, exAddr, BindingState.idle, 7⟩]⟩ exAddr 0x4000
      "nonce0" "integ").1.find_by_addr exAddr =
      some { (⟨0x4000, exAddr, BindingState.idle, 7⟩ : Binding) with
        st := BindingState.failed } ∧
    (refreshBindTask exEnv (fun _ => TxOutcome.response resCB400) 0 999
      ⟨[⟨0x4000, exAddr, BindingState.idle, 7⟩]⟩ exAddr 0x4000
      "nonce0" "integ").1.find_by_addr exAddr =
      some { (⟨0x4000, exAddr, BindingState.idle, 7⟩ : Binding) with
        st := BindingState.failed } ∧
    (initialBindTask exEnv (fun _ => TxOutcome.failure (TurnError.txFailure "timeout")) 0
      ⟨[⟨0x4000, exAddr, BindingState.idle, 7⟩]⟩ exAddr 0x4000
      "nonce0" "integ").1.find_by_addr exAddr = none ∧
    (refreshBindTask exEnv (fun _ => TxOutcome.failure (TurnError.txFailure "timeout")) 0 999
      ⟨[⟨0x4000, exAddr, BindingState.idle, 7⟩]⟩ exAddr 0x4000
      "nonce0" "integ").1.find_by_addr exAddr = none :=
  claimC6 exEnv (fun _ => TxOutcome.response resCBOk)
    (fun _ => TxOutcome.response resCB400)
    (fun _ => TxOutcome.failure (TurnError.txFailure "timeout")) 0 999
    ⟨[⟨0x4000, exAddr, BindingState.idle, 7⟩]⟩ exAddr
    ⟨0x4000, exAddr, BindingState.idle, 7⟩ 0x4000 "nonce0" "integ"
    resCBOk resCB400 (TurnError.txFailure "timeout")
    (by decide) rfl (by decide) rfl (by decide) rfl (by decide)

/-- Claim C7 is contradicted by the code: when the Alloc timer fires and
the very first `refresh_allocation(lifetime, dont_wait=false)` invocation
succeeds, the loop in `on_timeout` does not stop — it issues three Refresh
transactions in total (the loop breaks only on an error other than
TryAgain, never on success), where the claim (and the loop's own comment,
"limit the max retries on errTryAgain to 3") requires exactly one. -/
theorem claimC7_bug :
    (RelayConnInternal.on_timeout exEnv (fun _ => TxOutcome.response resRefreshOk) exC 0
      TimerIdRefresh.alloc).events =
      [Event.tx (OutMsg.refresh 600 "user" "realm" "nonce0" "integ") exEnv.turnServerAddr false,
       Event.tx (OutMsg.refresh 600 "user" "realm" "nonce0" "integ") exEnv.turnServerAddr false,
       Event.tx (OutMsg.refresh 600 "user" "realm" "nonce0" "integ") exEnv.turnServerAddr false] ∧
    (RelayConnInternal.on_timeout exEnv (fun _ => TxOutcome.response resRefreshOk) exC 0
      TimerIdRefresh.alloc).result = Except.ok () ∧
    (RelayConnInternal.on_timeout exEnv (fun _ => TxOutcome.response resRefreshOk) exC 0
      TimerIdRefresh.alloc).k = 3 := by
  refine ⟨?_, ?_, ?_⟩ <;> decide

/-- A facade state that is still open, with running timers and an empty
inbound queue. -/
def exRC : RelayConn := ⟨⟨8, 1⟩, true, [], true, true, exC⟩

/-- Claim C8: the first close stops both timers, drops the inbound queue
sender half, notifies the observer via on_deallocated(relayed_addr) and
issues exactly one Refresh with lifetime 0 in dont-wait mode, returning Ok
(provided the fire-and-forget send itself goes through); afterwards every
further close returns AlreadyClosed and every handle_inbound fails with
AlreadyClosed. -/
theorem claimC8 (env : Env) (script : Nat → TxOutcome) (rc : RelayConn) (k : Nat)
    (res : Message)
    (hopen : rc.readChTxOpen = true)
    (h : script k = TxOutcome.response res) :
    RelayConn.close env script rc k =
      ⟨Except.ok (),
       { rc with refreshAllocTimerRunning := false, refreshPermsTimerRunning := false,
                 readChTxOpen := false },
       k + 1,
       [Event.dealloc rc.relayConn.relayedAddr,
        Event.tx (OutMsg.refresh 0 env.username env.realm rc.relayConn.nonce
          rc.relayConn.integrity) env.turnServerAddr true]⟩ ∧
    (∀ (env₂ : Env) (script₂ : Nat → TxOutcome) (k₂ : Nat),
      RelayConn.close env₂ script₂ (RelayConn.close env script rc k).state k₂ =
        ⟨Except.error TurnError.alreadyClosed, (RelayConn.close env script rc k).state,
         k₂, []⟩) ∧
    (∀ (d : List Nat) (fa : SocketAddr),
      RelayConn.handle_inbound (RelayConn.close env script rc k).state d fa =
        (Except.error TurnError.alreadyClosed, (RelayConn.close env script rc k).state)) := by
  have hfirst : RelayConn.close env script rc k =
      ⟨Except.ok (),
       { rc with refreshAllocTimerRunning := false, refreshPermsTimerRunning := false,
                 readChTxOpen := false },
       k + 1,
       [Event.dealloc rc.relayConn.relayedAddr,
        Event.tx (OutMsg.refresh 0 env.username env.realm rc.relayConn.nonce
          rc.relayConn.integrity) env.turnServerAddr true]⟩ := by
    simp [RelayConn.close, hopen, RelayConnInternal.close,
      RelayConnInternal.refresh_allocation, h]
  refine ⟨hfirst, ?_, ?_⟩
  · intro env₂ script₂ k₂
    rw [hfirst]
    simp [RelayConn.close]
  · intro d fa
    rw [hfirst]
    simp [RelayConn.handle_inbound]

/-- Witness for C8 at concrete inputs. -/
theorem claimC8_witness :
    RelayConn.close exEnv (fun _ => TxOutcome.response resRefreshOk) exRC 0 =
      ⟨Except.ok (),
       { exRC with refreshAllocTimerRunning := false, refreshPermsTimerRunning := false,
                   readChTxOpen := false },
       1,
       [Event.dealloc exRC.relayConn.relayedAddr,
        Event.tx (OutMsg.refresh 0 exEnv.username exEnv.realm exRC.relayConn.nonce
          exRC.relayConn.integrity) exEnv.turnServerAddr true]⟩ ∧
    (∀ (env₂ : Env) (script₂ : Nat → TxOutcome) (k₂ : Nat),
      RelayConn.close env₂ script₂
          (RelayConn.close exEnv (fun _ => TxOutcome.response resRefreshOk) exRC 0).state k₂ =
        ⟨Except.error TurnError.alreadyClosed,
         (RelayConn.close exEnv (fun _ => TxOutcome.response resRefreshOk) exRC 0).state,
         k₂, []⟩) ∧
    (∀ (d : List Nat) (fa : SocketAddr),
      RelayConn.handle_inbound
          (RelayConn.close exEnv (fun _ => TxOutcome.response resRefreshOk) exRC 0).state d fa =
        (Except.error TurnError.alreadyClosed,
         (RelayConn.close exEnv (fun _ => TxOutcome.response resRefreshOk) exRC 0).state)) :=
  claimC8 exEnv (fun _ => TxOutcome.response resRefreshOk) exRC 0 resRefreshOk rfl rfl

/-- Claim C9: recv_from dequeues one inbound packet; when the buffer is
shorter than its payload the call fails with ShortBuffer and the packet is
not requeued (the queue has advanced past it); when the buffer is big
enough the payload is copied into the front of the buffer and (n, from)
returned, the queue advancing as well; when the queue is drained and the
sender half is closed, the call fails with AlreadyClosed. -/
theorem claimC9 (rc rcC : RelayConn) (bufS bufL : List Nat) (ibd : InboundData)
    (rest : List InboundData)
    (hq : rc.readQueue = ibd :: rest)
    (hS : bufS.length < ibd.data.length)
    (hL : ibd.data.length ≤ bufL.length)
    (hqC : rcC.readQueue = [])
    (hcC : rcC.readChTxOpen = false) :
    RelayConn.recv_from rc bufS =
      (some (Except.error TurnError.shortBuffer), { rc with readQueue := rest }) ∧
    RelayConn.recv_from rc bufL =
      (some (Except.ok (ibd.data.length, ibd.fromAddr, ibd.data ++ bufL.drop ibd.data.length)),
       { rc with readQueue := rest }) ∧
    RelayConn.recv_from rcC bufS = (some (Except.error TurnError.alreadyClosed), rcC) := by
  refine ⟨?_, ?_, ?_⟩
  · simp [RelayConn.recv_from, hq, hS]
  · have hnot : ¬ (bufL.length < ibd.data.length) := by omega
    simp [RelayConn.recv_from, hq, hnot]
  · simp [RelayConn.recv_from, hqC, hcC]

/-- A facade state holding one queued 3-byte packet. -/
def exRCQueued : RelayConn := ⟨⟨8, 1⟩, true, [⟨[1, 2, 3], exAddr⟩], true, true, exC⟩

/-- A facade state that is closed and drained. -/
def exRCClosed : RelayConn := ⟨⟨8, 1⟩, false, [], false, false, exC⟩

/-- Witness for C9 at concrete inputs. -/
theorem claimC9_witness :
    RelayConn.recv_from exRCQueued [0] =
      (some (Except.error TurnError.shortBuffer), { exRCQueued with readQueue := [] }) ∧
    RelayConn.recv_from exRCQueued [0, 0, 0, 0] =
      (some (Except.ok (3, exAddr, [1, 2, 3, 0])), { exRCQueued with readQueue := [] }) ∧
    RelayConn.recv_from exRCClosed [0] =
      (some (Except.error TurnError.alreadyClosed), exRCClosed) :=
  claimC9 exRCQueued exRCClosed [0] [0, 0, 0, 0] ⟨[1, 2, 3], exAddr⟩ []
    rfl (by decide) (by decide) rfl rfl

end Turn
